import Mathlib

/-!
Verification development for the OSM-to-mesh geometry pipeline
(`scripts/osm/build_buildings.py` and `scripts/osm/build_roads.py`).

Modelling conventions:
* Python `float` values are modelled as exact numbers: `ℚ` where the code
  only performs field operations and comparisons (tag parsing, heightmap
  sampling), and `ℝ` where transcendental functions enter
  (`math.cos`, `math.pi`, `np.linalg.norm`).  Input latitude/longitude
  values come from JSON decimal literals and are modelled as `ℚ`.
* A Python `dict` of string tags is modelled as an association list with
  first-match lookup (`List (String × String)`).
* Python string operations (`str.replace`, `str.strip`, `float(...)`,
  `int(...)`) are modelled on `List Char`.  `float(...)`/`int(...)` are
  modelled on decimal literals (optional sign, digits, decimal point,
  exponent); the special values `inf`/`nan`, and underscore digit
  grouping, are outside the model.
* External library collaborators (shapely polygon validity/repair/area,
  trimesh extrusion) are abstracted as parameters, as the specification
  itself treats them as external capabilities.
-/

namespace OSM

/-- `EARTH_RADIUS = 6378137.0` (meters), from both scripts. -/
def EARTH_RADIUS : ℚ := 6378137

/-- `METERS_TO_FEET = 3.28084`, from both scripts. -/
def METERS_TO_FEET : ℚ := 328084 / 100000

/-! ### Python string / number parsing model -/

/-- Numeric value of a list of decimal digit characters (most significant
first), as Python builds it when parsing an integer literal. -/
def digitsVal (l : List Char) : ℕ :=
  l.foldl (fun a c => a * 10 + (c.toNat - 48)) 0

/-- Python `str.strip()`: drop leading and trailing whitespace. -/
def pyStrip (l : List Char) : List Char :=
  ((l.dropWhile Char.isWhitespace).reverse.dropWhile Char.isWhitespace).reverse

/-- All characters are decimal digits and there is at least one. -/
def allDigits1 (l : List Char) : Bool :=
  !l.isEmpty && l.all Char.isDigit

/-- Python `int(s)` on a (stripped) string: optional sign then one or more
digits; anything else raises `ValueError`, modelled as `none`. -/
def pyIntCore : List Char → Option ℤ
  | '+' :: rest => if allDigits1 rest then some (digitsVal rest) else none
  | '-' :: rest => if allDigits1 rest then some (-(digitsVal rest : ℤ)) else none
  | rest => if allDigits1 rest then some (digitsVal rest) else none

/-- Python `int(s)`: strip whitespace, then parse a signed decimal integer. -/
def pyInt? (s : String) : Option ℤ :=
  pyIntCore (pyStrip s.toList)

/-- Split a character list at the first occurrence of a separator
satisfying `p`: returns the part before and, when found, the part after. -/
def splitAtFirst (p : Char → Bool) : List Char → List Char × Option (List Char)
  | [] => ([], none)
  | c :: rest =>
    if p c then ([], some rest)
    else
      let r := splitAtFirst p rest
      (c :: r.1, r.2)

/-- Value of an unsigned decimal mantissa `intpart [. fracpart]`: both digit
runs may be empty but not both, as Python's `float` accepts `"12."`,
`".5"`, `"12.5"` but not `"."` or `""`. -/
def pyMantissa? (l : List Char) : Option ℚ :=
  let s := splitAtFirst (fun c => c = '.') l
  let ip := s.1
  match s.2 with
  | none => if allDigits1 ip then some (digitsVal ip) else none
  | some fp =>
    if ip.all Char.isDigit && fp.all Char.isDigit && !(ip.isEmpty && fp.isEmpty) then
      some ((digitsVal ip : ℚ) + (digitsVal fp : ℚ) / (10 : ℚ) ^ fp.length)
    else none

/-- Signed decimal exponent after `e`/`E`: optional sign then one or more
digits. -/
def pyExp? : List Char → Option ℤ
  | '+' :: rest => if allDigits1 rest then some (digitsVal rest) else none
  | '-' :: rest => if allDigits1 rest then some (-(digitsVal rest : ℤ)) else none
  | rest => if allDigits1 rest then some (digitsVal rest) else none

/-- Unsigned part of Python `float(s)`: mantissa with optional exponent. -/
def pyFloatUnsigned? (l : List Char) : Option ℚ :=
  let s := splitAtFirst (fun c => c = 'e' || c = 'E') l
  match s.2 with
  | none => pyMantissa? s.1
  | some ex =>
    match pyMantissa? s.1, pyExp? ex with
    | some m, some e => some (m * (10 : ℚ) ^ e)
    | _, _ => none

/-- Python `float(s)` on a decimal literal: strip whitespace, optional
sign, mantissa, optional exponent.  Failure (`ValueError`) is `none`. -/
def pyFloat? (s : String) : Option ℚ :=
  match pyStrip s.toList with
  | '+' :: rest => pyFloatUnsigned? rest
  | '-' :: rest => (pyFloatUnsigned? rest).map Neg.neg
  | rest => pyFloatUnsigned? rest

/-- `h.replace("m", "").replace("'", "").strip()`: removing every `m` and
every apostrophe (single-character patterns with empty replacement) is a
character filter, then strip whitespace. -/
def cleanDim (s : String) : List Char :=
  pyStrip (s.toList.filter (fun c => !(c = 'm' || c = Char.ofNat 39)))

/-- The cleaned explicit-dimension tag fed to `float(...)`, as a string
parse over the cleaned characters. -/
def pyFloatClean? (s : String) : Option ℚ :=
  match pyStrip (cleanDim s) with
  | '+' :: rest => pyFloatUnsigned? rest
  | '-' :: rest => (pyFloatUnsigned? rest).map Neg.neg
  | rest => pyFloatUnsigned? rest

/-! ### Tag sets and attribute resolution -/

/-- A Python `dict` tag set: association list, unique keys assumed,
first-match lookup. -/
def lookupTag (k : String) (tags : List (String × String)) : Option String :=
  (tags.find? (fun p => p.1 = k)).map Prod.snd

/-- Table lookup with default, modelling `dict.get(key, default)`. -/
def lookupTable (k : String) (table : List (String × ℚ)) (d : ℚ) : ℚ :=
  ((table.find? (fun p => p.1 = k)).map Prod.snd).getD d

/-- `DEFAULT_HEIGHTS` table from `build_buildings.py` (feet by building type). -/
def DEFAULT_HEIGHTS : List (String × ℚ) :=
  [("house", 25), ("residential", 30), ("apartments", 45), ("commercial", 35),
   ("retail", 20), ("industrial", 40), ("warehouse", 30), ("garage", 12),
   ("shed", 10), ("barn", 35), ("church", 50), ("school", 35),
   ("hospital", 60), ("yes", 25)]

/-- `DEFAULT_HEIGHT = 25` feet. -/
def DEFAULT_HEIGHT : ℚ := 25

/-- `ROAD_WIDTHS` table from `build_roads.py` (feet by highway type). -/
def ROAD_WIDTHS : List (String × ℚ) :=
  [("motorway", 48), ("motorway_link", 24), ("trunk", 40), ("trunk_link", 20),
   ("primary", 36), ("primary_link", 18), ("secondary", 30),
   ("secondary_link", 15), ("tertiary", 24), ("tertiary_link", 12),
   ("residential", 20), ("unclassified", 18), ("service", 12),
   ("living_street", 16), ("pedestrian", 10), ("footway", 6), ("path", 4),
   ("cycleway", 8), ("bridleway", 8), ("steps", 6), ("track", 10),
   ("road", 20)]

/-- `DEFAULT_ROAD_WIDTH = 16` feet. -/
def DEFAULT_ROAD_WIDTH : ℚ := 16

/-- Tier 1 of height resolution: the `height` tag, cleaned and parsed as a
float (`none` when the key is absent or the parse raises). -/
def heightTag? (tags : List (String × String)) : Option ℚ :=
  (lookupTag "height" tags).bind pyFloatClean?

/-- Tier 2 of height resolution: the `building:levels` tag parsed as an
integer. -/
def levelsTag? (tags : List (String × String)) : Option ℤ :=
  (lookupTag "building:levels" tags).bind pyInt?

/-- `get_building_height` from `build_buildings.py`: explicit `height`
tag × meters-to-feet, else `building:levels` × 10, else the
`building`-type table (key defaulting to `"yes"`) with fallback 25. -/
def get_building_height (tags : List (String × String)) : ℚ :=
  match heightTag? tags with
  | some h => h * METERS_TO_FEET
  | none =>
    match levelsTag? tags with
    | some levels => (levels : ℚ) * 10
    | none =>
      lookupTable ((lookupTag "building" tags).getD "yes") DEFAULT_HEIGHTS
        DEFAULT_HEIGHT

/-- Tier 1 of width resolution: the `width` tag, cleaned and parsed as a
float. -/
def widthTag? (tags : List (String × String)) : Option ℚ :=
  (lookupTag "width" tags).bind pyFloatClean?

/-- Tier 2 of width resolution: the `lanes` tag parsed as an integer. -/
def lanesTag? (tags : List (String × String)) : Option ℤ :=
  (lookupTag "lanes" tags).bind pyInt?

/-- `get_road_width` from `build_roads.py`: explicit `width` tag ×
meters-to-feet, else `lanes` × 10, else the `highway`-type table (key
defaulting to `"road"`) with fallback 16. -/
def get_road_width (tags : List (String × String)) : ℚ :=
  match widthTag? tags with
  | some w => w * METERS_TO_FEET
  | none =>
    match lanesTag? tags with
    | some lanes => (lanes : ℚ) * 10
    | none =>
      lookupTable ((lookupTag "highway" tags).getD "road") ROAD_WIDTHS
        DEFAULT_ROAD_WIDTH

/-! ### Heightmap sampler (`HeightmapSampler` in both scripts) -/

/-- A loaded elevation grid: the metadata record plus the row-major
`float32` sample grid.  The grid is modelled as a total function; `sample`
only ever reads indices the bounds guard has validated. -/
structure Heightmap where
  origin_lat : ℚ
  origin_lon : ℚ
  pixel_size : ℚ
  width : ℕ
  height : ℕ
  grid : ℕ → ℕ → ℚ

/-- Fractional column `(lon - origin_lon) / pixel_size`. -/
def colOf (hm : Heightmap) (lon : ℚ) : ℚ :=
  (lon - hm.origin_lon) / hm.pixel_size

/-- Fractional row `(origin_lat - lat) / pixel_size` (rows grow southward). -/
def rowOf (hm : Heightmap) (lat : ℚ) : ℚ :=
  (hm.origin_lat - lat) / hm.pixel_size

/-- The bounds guard of `HeightmapSampler.sample`:
`col < 0 or col >= width - 1 or row < 0 or row >= height - 1`. -/
def sampleOOB (hm : Heightmap) (lat lon : ℚ) : Prop :=
  colOf hm lon < 0 ∨ (hm.width : ℚ) - 1 ≤ colOf hm lon ∨
    rowOf hm lat < 0 ∨ (hm.height : ℚ) - 1 ≤ rowOf hm lat

instance (hm : Heightmap) (lat lon : ℚ) : Decidable (sampleOOB hm lat lon) := by
  unfold sampleOOB; infer_instance

/-- The bilinear interpolation body of `HeightmapSampler.sample`, in
meters-to-feet.  Python's `int(col)` truncates toward zero, which on the
guard-validated range `col ≥ 0` is the floor. -/
def bilinear (hm : Heightmap) (lat lon : ℚ) : ℚ :=
  let col := colOf hm lon
  let row := rowOf hm lat
  let c0 := (⌊col⌋).toNat
  let r0 := (⌊row⌋).toNat
  let dc := col - (c0 : ℚ)
  let dr := row - (r0 : ℚ)
  let v00 := hm.grid r0 c0
  let v01 := hm.grid r0 (c0 + 1)
  let v10 := hm.grid (r0 + 1) c0
  let v11 := hm.grid (r0 + 1) (c0 + 1)
  let v0 := v00 * (1 - dc) + v01 * dc
  let v1 := v10 * (1 - dc) + v11 * dc
  (v0 * (1 - dr) + v1 * dr) * METERS_TO_FEET

/-- `HeightmapSampler.sample` on a loaded grid: `none` out of bounds, else
the interpolated elevation in feet. -/
def sampleGrid (hm : Heightmap) (lat lon : ℚ) : Option ℚ :=
  if sampleOOB hm lat lon then none else some (bilinear hm lat lon)

/-- `HeightmapSampler.sample`, including the no-grid case
(`self.grid is None`). -/
def sample (hm? : Option Heightmap) (lat lon : ℚ) : Option ℚ :=
  match hm? with
  | none => none
  | some hm => sampleGrid hm lat lon

/-- 2×2 test grid: pixel size 1°, origin (0°, 0°), sample `2r + c` meters. -/
def grid2 : Heightmap :=
  { origin_lat := 0, origin_lon := 0, pixel_size := 1, width := 2, height := 2,
    grid := fun r c => (2 * r + c : ℚ) }

/-- 3×3 test grid: pixel size 1°, origin (0°, 0°), sample `2r + c` meters. -/
def grid3 : Heightmap :=
  { origin_lat := 0, origin_lon := 0, pixel_size := 1, width := 3, height := 3,
    grid := fun r c => (2 * r + c : ℚ) }

/-! ### Local tangent-plane projection (`latlon_to_local` in both scripts) -/

/-- `latlon_to_local`: equirectangular projection to local feet
coordinates (X = East, Z = North).  `math.radians(d)` is `d·π/180`;
longitude scale carries `cos(origin_lat)`. -/
noncomputable def latlon_to_local (lat lon origin_lat origin_lon : ℝ) : ℝ × ℝ :=
  let origin_lat_rad := origin_lat * (Real.pi / 180)
  let meters_per_deg_lat := (Real.pi / 180) * ((EARTH_RADIUS : ℚ) : ℝ)
  let meters_per_deg_lon :=
    (Real.pi / 180) * ((EARTH_RADIUS : ℚ) : ℝ) * Real.cos origin_lat_rad
  let dx_meters := (lon - origin_lon) * meters_per_deg_lon
  let dz_meters := (lat - origin_lat) * meters_per_deg_lat
  (dx_meters * ((METERS_TO_FEET : ℚ) : ℝ), dz_meters * ((METERS_TO_FEET : ℚ) : ℝ))

/-! ### Road strip meshing (`road_to_mesh` in `build_roads.py`) -/

/-- A 3D point/vector in local game coordinates (x east, y up, z north). -/
@[ext]
structure Vec3 where
  x : ℝ
  y : ℝ
  z : ℝ

/-- The zero vector, used as an explicit out-of-range default for list
reads that the code keeps in range. -/
def vzero : Vec3 := ⟨0, 0, 0⟩

def vadd (a b : Vec3) : Vec3 := ⟨a.x + b.x, a.y + b.y, a.z + b.z⟩

def vsub (a b : Vec3) : Vec3 := ⟨a.x - b.x, a.y - b.y, a.z - b.z⟩

/-- numpy scalar × vector. -/
def vsmul (c : ℝ) (a : Vec3) : Vec3 := ⟨c * a.x, c * a.y, c * a.z⟩

/-- numpy elementwise division by a scalar. -/
noncomputable def vdiv (a : Vec3) (c : ℝ) : Vec3 := ⟨a.x / c, a.y / c, a.z / c⟩

/-- `np.linalg.norm` of a 3-vector. -/
noncomputable def vnorm (a : Vec3) : ℝ := Real.sqrt (a.x ^ 2 + a.y ^ 2 + a.z ^ 2)

/-- Euclidean distance between two points. -/
noncomputable def dist3 (a b : Vec3) : ℝ := vnorm (vsub a b)

/-- A mesh at the builder boundary: the vertex and triangle-index lists as
assembled by the Python loops (before the external trimesh wrapping). -/
structure Mesh where
  vertices : List Vec3
  faces : List (ℕ × ℕ × ℕ)

/-- `ROAD_SURFACE_OFFSET = 0.1` feet. -/
def ROAD_SURFACE_OFFSET : ℚ := 1 / 10

/-- Step 2 of `road_to_mesh`: project one node and attach its sampled
elevation (default elevation when the sampler answers absent) plus the
road surface offset. -/
noncomputable def roadPoint (hm? : Option Heightmap) (default_elevation : ℚ)
    (origin_lat origin_lon : ℚ) (node : ℚ × ℚ) : Vec3 :=
  let xz := latlon_to_local (node.1 : ℝ) (node.2 : ℝ)
    (origin_lat : ℝ) (origin_lon : ℝ)
  let y : ℚ := (sample hm? node.1 node.2).getD default_elevation
    + ROAD_SURFACE_OFFSET
  ⟨xz.1, (y : ℝ), xz.2⟩

/-- All projected road points, in input order (`points_3d`). -/
noncomputable def roadPoints (nodes : List (ℚ × ℚ)) (hm? : Option Heightmap)
    (default_elevation : ℚ) (origin_lat origin_lon : ℚ) : List Vec3 :=
  nodes.map (roadPoint hm? default_elevation origin_lat origin_lon)

/-- The raw direction vector at vertex `i`: single adjacent segment at the
endpoints, sum of the two normalized segment directions at interior
vertices. -/
noncomputable def dirAt (pts : List Vec3) (i : ℕ) : Vec3 :=
  if i = 0 then vsub (pts.getD 1 vzero) (pts.getD 0 vzero)
  else if i = pts.length - 1 then
    vsub (pts.getD i vzero) (pts.getD (i - 1) vzero)
  else
    let dIn := vsub (pts.getD i vzero) (pts.getD (i - 1) vzero)
    let dOut := vsub (pts.getD (i + 1) vzero) (pts.getD i vzero)
    vadd (vdiv dIn (vnorm dIn)) (vdiv dOut (vnorm dOut))

/-- `direction[1] = 0`: the direction flattened to the horizontal plane. -/
noncomputable def flatDir (pts : List Vec3) (i : ℕ) : Vec3 :=
  ⟨(dirAt pts i).x, 0, (dirAt pts i).z⟩

/-- The length of the flattened direction. -/
noncomputable def flatLen (pts : List Vec3) (i : ℕ) : ℝ := vnorm (flatDir pts i)

/-- The horizontal perpendicular at vertex `i`: on a degenerate direction
(`length < 0.001`) the code substitutes `perp = [1, 0, 0]` directly;
otherwise it normalizes and rotates 90° in the XZ plane. -/
noncomputable def perpAt (pts : List Vec3) (i : ℕ) : Vec3 :=
  if flatLen pts i < 1 / 1000 then ⟨1, 0, 0⟩
  else
    let d := vdiv (flatDir pts i) (flatLen pts i)
    ⟨-d.z, 0, d.x⟩

/-- The emitted left vertex at centerline vertex `i`. -/
noncomputable def leftAt (pts : List Vec3) (half_width : ℝ) (i : ℕ) : Vec3 :=
  vadd (pts.getD i vzero) (vsmul half_width (perpAt pts i))

/-- The emitted right vertex at centerline vertex `i`. -/
noncomputable def rightAt (pts : List Vec3) (half_width : ℝ) (i : ℕ) : Vec3 :=
  vsub (pts.getD i vzero) (vsmul half_width (perpAt pts i))

/-- The vertex list: left then right per input point, in input order. -/
noncomputable def roadVertices (pts : List Vec3) (half_width : ℝ) : List Vec3 :=
  (List.range pts.length).flatMap
    (fun i => [leftAt pts half_width i, rightAt pts half_width i])

/-- The triangle list: two triangles per consecutive centerline segment,
`(2i, 2i+2, 2i+1)` and `(2i+1, 2i+2, 2i+3)`. -/
def roadFaces (n : ℕ) : List (ℕ × ℕ × ℕ) :=
  (List.range (n - 1)).flatMap
    (fun i => [(2 * i, 2 * i + 2, 2 * i + 1), (2 * i + 1, 2 * i + 2, 2 * i + 3)])

/-- `road_to_mesh`: reject fewer than 2 points (the Python function checks
this twice, before and after projection, on the same length), build the
strip vertices and faces, reject when no faces were produced. -/
noncomputable def road_to_mesh (nodes : List (ℚ × ℚ)) (width : ℚ)
    (hm? : Option Heightmap) (default_elevation : ℚ)
    (origin_lat origin_lon : ℚ) : Option Mesh :=
  if nodes.length < 2 then none
  else
    let pts := roadPoints nodes hm? default_elevation origin_lat origin_lon
    let faces := roadFaces pts.length
    if faces.length = 0 then none
    else some ⟨roadVertices pts ((width : ℝ) / 2), faces⟩

/-! ### Footprint meshing (`polygon_to_mesh` in `build_buildings.py`).
The shapely/trimesh collaborators (validity test, `make_valid` repair,
area, extrusion with rotation and translation) are external capabilities;
they are abstracted as a backend record, exactly as the specification
treats them. -/

/-- A member of a repaired `GeometryCollection`: either a polygon (kept by
the filter on `geom_type == 'Polygon'`) or some other geometry. -/
inductive Shape where
  | polygon (ring : List (ℝ × ℝ))
  | nonpolygon

/-- The result of the external `make_valid` repair: a single polygon, a
`GeometryCollection`, or some other unsupported geometry type. -/
inductive Repaired where
  | polygon (ring : List (ℝ × ℝ))
  | collection (gs : List Shape)
  | other

/-- The external shapely/trimesh collaborators used by
`polygon_to_mesh`; `extrude` covers `extrude_polygon` plus the rotation
and the translation to base elevation, returning `none` on exceptions. -/
structure GeomBackend where
  is_valid : List (ℝ × ℝ) → Bool
  make_valid : List (ℝ × ℝ) → Repaired
  area : List (ℝ × ℝ) → ℝ
  extrude : List (ℝ × ℝ) → ℝ → ℝ → Option Mesh

/-- The polygon members of a repaired collection, in order
(`[g for g in polygon.geoms if g.geom_type == 'Polygon']`). -/
def shapePolys (gs : List Shape) : List (List (ℝ × ℝ)) :=
  gs.filterMap (fun g => match g with
    | .polygon r => some r
    | .nonpolygon => none)

/-- Python `max(polygons, key=lambda p: p.area)`: the first element of
maximal area (later elements replace only on strictly larger area). -/
noncomputable def pickLargest (area : List (ℝ × ℝ) → ℝ)
    (h : List (ℝ × ℝ)) (t : List (List (ℝ × ℝ))) : List (ℝ × ℝ) :=
  t.foldl (fun best p => if area best < area p then p else best) h

/-- The projected footprint ring (`points_2d`). -/
noncomputable def projectedRing (nodes : List (ℚ × ℚ))
    (origin_lat origin_lon : ℚ) : List (ℝ × ℝ) :=
  nodes.map (fun n => latlon_to_local (n.1 : ℝ) (n.2 : ℝ)
    (origin_lat : ℝ) (origin_lon : ℝ))

/-- Steps 1–3 of `polygon_to_mesh`: the polygon that reaches the area
check — the projected ring when valid, else the repaired selection
(largest polygon of a collection), else rejection. -/
noncomputable def resolvedPolygon (B : GeomBackend) (nodes : List (ℚ × ℚ))
    (origin_lat origin_lon : ℚ) : Option (List (ℝ × ℝ)) :=
  if nodes.length < 3 then none
  else
    let pts := projectedRing nodes origin_lat origin_lon
    if B.is_valid pts then some pts
    else
      match B.make_valid pts with
      | .polygon r => some r
      | .collection gs =>
        match shapePolys gs with
        | [] => none
        | h :: t => some (pickLargest B.area h t)
      | .other => none

/-- `polygon_to_mesh`: resolve the polygon, reject areas below 10 sq ft,
then hand to the external extrusion. -/
noncomputable def polygon_to_mesh (B : GeomBackend) (nodes : List (ℚ × ℚ))
    (height base_elevation : ℝ) (origin_lat origin_lon : ℚ) : Option Mesh :=
  match resolvedPolygon B nodes origin_lat origin_lon with
  | none => none
  | some poly =>
    if B.area poly < 10 then none
    else B.extrude poly height base_elevation

/-- Shoelace cross-term sum of a ring (closing back to `first`). -/
def shoelaceAux (first : ℝ × ℝ) : List (ℝ × ℝ) → ℝ
  | [] => 0
  | [p] => p.1 * first.2 - first.1 * p.2
  | p :: q :: rest => (p.1 * q.2 - q.1 * p.2) + shoelaceAux first (q :: rest)

/-- Absolute shoelace area of a ring, the planar polygon area shapely
computes for a simple ring. -/
noncomputable def polyArea : List (ℝ × ℝ) → ℝ
  | [] => 0
  | p :: rest => |shoelaceAux p (p :: rest)| / 2

/-- A concrete geometry backend used to instantiate the abstract
collaborator: every ring counts as valid, repair is never consulted, area
is the shoelace area, extrusion returns an empty mesh. -/
noncomputable def simpleBackend : GeomBackend :=
  { is_valid := fun _ => true
    make_valid := fun _ => Repaired.other
    area := polyArea
    extrude := fun _ _ _ => some ⟨[], []⟩ }

/-- Concrete 2-node polyline: 1° of latitude along the prime meridian. -/
def cnodes2 : List (ℚ × ℚ) := [(0, 0), (1, 0)]

/-- Its projected road points (no heightmap, default elevation 0). -/
noncomputable def pts2 : List Vec3 := roadPoints cnodes2 none 0 0 0

/-- Concrete degenerate polyline: two coincident nodes. -/
def cnodesDup : List (ℚ × ℚ) := [(0, 0), (0, 0)]

/-- Its projected road points. -/
noncomputable def ptsDup : List Vec3 := roadPoints cnodesDup none 0 0 0

/-- Concrete 3-node collinear footprint along the prime meridian. -/
def cnodes3 : List (ℚ × ℚ) := [(0, 0), (1, 0), (2, 0)]

/-- A defaulted table lookup is positive when every table entry and the
default are positive. -/
theorem lookupTable_pos (k : String) (table : List (String × ℚ)) (d : ℚ)
    (ht : ∀ p ∈ table, 0 < p.2) (hd : 0 < d) : 0 < lookupTable k table d := by
  unfold lookupTable
  cases hf : table.find? (fun p => p.1 = k) with
  | none => simpa using hd
  | some p =>
    have hm : p ∈ table := List.mem_of_find?_eq_some hf
    simpa using ht p hm

theorem DEFAULT_HEIGHTS_pos : ∀ p ∈ DEFAULT_HEIGHTS, 0 < p.2 := by
  intro p hp
  fin_cases hp <;> norm_num

theorem ROAD_WIDTHS_pos : ∀ p ∈ ROAD_WIDTHS, 0 < p.2 := by
  intro p hp
  fin_cases hp <;> norm_num

theorem METERS_TO_FEET_pos : 0 < METERS_TO_FEET := by
  unfold METERS_TO_FEET; norm_num

theorem sampleGrid_oob (hm : Heightmap) (lat lon : ℚ)
    (h : sampleOOB hm lat lon) : sampleGrid hm lat lon = none := by
  rw [sampleGrid, if_pos h]

theorem sampleGrid_inb (hm : Heightmap) (lat lon : ℚ)
    (h : ¬ sampleOOB hm lat lon) :
    sampleGrid hm lat lon = some (bilinear hm lat lon) := by
  rw [sampleGrid, if_neg h]

/-- At the geodetic point mapping exactly to integral `(row, col) = (r, c)`
the interpolation weights vanish and bilinear interpolation degenerates to
the node sample (converted to feet). -/
theorem bilinear_node (hm : Heightmap) (r c : ℕ) (hp : hm.pixel_size ≠ 0) :
    bilinear hm (hm.origin_lat - r * hm.pixel_size)
        (hm.origin_lon + c * hm.pixel_size) = hm.grid r c * METERS_TO_FEET := by
  have hcol : colOf hm (hm.origin_lon + c * hm.pixel_size) = c := by
    unfold colOf; field_simp
  have hrow : rowOf hm (hm.origin_lat - r * hm.pixel_size) = r := by
    unfold rowOf; field_simp
  unfold bilinear
  rw [hcol, hrow]
  simp [Int.floor_natCast]

/-- Convexity of the two-point interpolation step: for a weight in
`[0, 1]` the interpolant lies between the two endpoint values. -/
theorem convex2_bounds (a b t : ℚ) (h0 : 0 ≤ t) (h1 : t ≤ 1) :
    min a b ≤ a * (1 - t) + b * t ∧ a * (1 - t) + b * t ≤ max a b := by
  constructor <;>
    nlinarith [min_le_left a b, min_le_right a b, le_max_left a b,
      le_max_right a b]

/-- The scaled bilinear interpolation formula lies between the minimum and
the maximum of the four scaled corner values when both weights lie in
`[0, 1]` and the scale factor is non-negative. -/
theorem bilinear_formula_bounds (v00 v01 v10 v11 dc dr k : ℚ)
    (hdc0 : 0 ≤ dc) (hdc1 : dc ≤ 1) (hdr0 : 0 ≤ dr) (hdr1 : dr ≤ 1)
    (hk : 0 ≤ k) :
    min (min (v00 * k) (v01 * k)) (min (v10 * k) (v11 * k))
      ≤ ((v00 * (1 - dc) + v01 * dc) * (1 - dr)
          + (v10 * (1 - dc) + v11 * dc) * dr) * k ∧
    ((v00 * (1 - dc) + v01 * dc) * (1 - dr)
        + (v10 * (1 - dc) + v11 * dc) * dr) * k
      ≤ max (max (v00 * k) (v01 * k)) (max (v10 * k) (v11 * k)) := by
  have hb0 := convex2_bounds v00 v01 dc hdc0 hdc1
  have hb1 := convex2_bounds v10 v11 dc hdc0 hdc1
  have hbr := convex2_bounds (v00 * (1 - dc) + v01 * dc)
    (v10 * (1 - dc) + v11 * dc) dr hdr0 hdr1
  have hmin : min (min v00 v01) (min v10 v11)
      ≤ (v00 * (1 - dc) + v01 * dc) * (1 - dr)
        + (v10 * (1 - dc) + v11 * dc) * dr :=
    le_trans (le_min (le_trans (min_le_left _ _) hb0.1)
      (le_trans (min_le_right _ _) hb1.1)) hbr.1
  have hmax : (v00 * (1 - dc) + v01 * dc) * (1 - dr)
        + (v10 * (1 - dc) + v11 * dc) * dr
      ≤ max (max v00 v01) (max v10 v11) :=
    le_trans hbr.2 (max_le (le_trans hb0.2 (le_max_left _ _))
      (le_trans hb1.2 (le_max_right _ _)))
  constructor
  · calc min (min (v00 * k) (v01 * k)) (min (v10 * k) (v11 * k))
        = min (min v00 v01) (min v10 v11) * k := by
          rw [min_mul_of_nonneg _ _ hk, min_mul_of_nonneg _ _ hk,
            min_mul_of_nonneg _ _ hk]
      _ ≤ _ := mul_le_mul_of_nonneg_right hmin hk
  · calc ((v00 * (1 - dc) + v01 * dc) * (1 - dr)
          + (v10 * (1 - dc) + v11 * dc) * dr) * k
        ≤ max (max v00 v01) (max v10 v11) * k :=
          mul_le_mul_of_nonneg_right hmax hk
      _ = max (max (v00 * k) (v01 * k)) (max (v10 * k) (v11 * k)) := by
          rw [max_mul_of_nonneg _ _ hk, max_mul_of_nonneg _ _ hk,
            max_mul_of_nonneg _ _ hk]

theorem pair_flatMap_length {A : Type} (n : ℕ) (f g : ℕ → A) :
    ((List.range n).flatMap (fun i => [f i, g i])).length = 2 * n := by
  induction n with
  | zero => simp
  | succ k ih =>
    rw [List.range_succ, List.flatMap_append, List.length_append, ih]
    simp
    omega

theorem pair_flatMap_getD {A : Type} (n i : ℕ) (hi : i < n) (f g : ℕ → A)
    (d : A) :
    ((List.range n).flatMap (fun j => [f j, g j])).getD (2 * i) d = f i ∧
    ((List.range n).flatMap (fun j => [f j, g j])).getD (2 * i + 1) d = g i := by
  induction n with
  | zero => omega
  | succ k ih =>
    rw [List.range_succ, List.flatMap_append]
    rcases Nat.lt_succ_iff_lt_or_eq.1 hi with h | rfl
    · have hlen := pair_flatMap_length k f g
      rw [List.getD_append _ _ _ _ (by rw [hlen]; omega),
        List.getD_append _ _ _ _ (by rw [hlen]; omega)]
      exact ih h
    · have hlen := pair_flatMap_length i f g
      constructor
      · rw [List.getD_append_right _ _ _ _ (by rw [hlen]), hlen]
        simp
      · rw [List.getD_append_right _ _ _ _ (by rw [hlen]; omega), hlen]
        simp

theorem roadPoints_length (nodes : List (ℚ × ℚ)) (hm? : Option Heightmap)
    (de olat olon : ℚ) :
    (roadPoints nodes hm? de olat olon).length = nodes.length := by
  unfold roadPoints
  exact List.length_map _ _

theorem roadVertices_length (pts : List Vec3) (hw : ℝ) :
    (roadVertices pts hw).length = 2 * pts.length :=
  pair_flatMap_length pts.length _ _

theorem roadVertices_getD (pts : List Vec3) (hw : ℝ) (i : ℕ)
    (hi : i < pts.length) :
    (roadVertices pts hw).getD (2 * i) vzero = leftAt pts hw i ∧
    (roadVertices pts hw).getD (2 * i + 1) vzero = rightAt pts hw i :=
  pair_flatMap_getD pts.length i hi _ _ _

theorem roadFaces_length (n : ℕ) : (roadFaces n).length = 2 * (n - 1) :=
  pair_flatMap_length (n - 1) _ _

theorem roadFaces_getD (n i : ℕ) (hi : i < n - 1) :
    (roadFaces n).getD (2 * i) (0, 0, 0) = (2 * i, 2 * i + 2, 2 * i + 1) ∧
    (roadFaces n).getD (2 * i + 1) (0, 0, 0)
      = (2 * i + 1, 2 * i + 2, 2 * i + 3) :=
  pair_flatMap_getD (n - 1) i hi _ _ _

/-- For at least two input points `road_to_mesh` succeeds and returns the
strip mesh. -/
theorem road_to_mesh_eq (nodes : List (ℚ × ℚ)) (width : ℚ)
    (hm? : Option Heightmap) (de olat olon : ℚ) (h2 : 2 ≤ nodes.length) :
    road_to_mesh nodes width hm? de olat olon =
      some ⟨roadVertices (roadPoints nodes hm? de olat olon) ((width : ℝ) / 2),
            roadFaces (roadPoints nodes hm? de olat olon).length⟩ := by
  unfold road_to_mesh
  rw [if_neg (by omega)]
  rw [if_neg]
  rw [roadFaces_length, roadPoints_length]
  omega

theorem vsub_add_sub (p s : Vec3) :
    vsub (vadd p s) (vsub p s) = vsmul 2 s := by
  unfold vadd vsub vsmul
  ext <;> dsimp <;> ring

theorem vnorm_smul (c : ℝ) (v : Vec3) : vnorm (vsmul c v) = |c| * vnorm v := by
  unfold vnorm vsmul
  dsimp
  rw [mul_pow, mul_pow, mul_pow, ← mul_add, ← mul_add,
    Real.sqrt_mul (sq_nonneg c), Real.sqrt_sq_eq_abs]

theorem vnorm_nonneg (v : Vec3) : 0 ≤ vnorm v := Real.sqrt_nonneg _

/-- A non-degenerate flattened direction yields a unit perpendicular. -/
theorem vnorm_perpAt (pts : List Vec3) (i : ℕ)
    (h : ¬ flatLen pts i < 1 / 1000) : vnorm (perpAt pts i) = 1 := by
  have hL : (1 : ℝ) / 1000 ≤ flatLen pts i := not_lt.1 h
  have hLpos : 0 < flatLen pts i := lt_of_lt_of_le (by norm_num) hL
  unfold perpAt
  rw [if_neg h]
  unfold vdiv
  dsimp
  have hsq : (flatDir pts i).x ^ 2 + (0 : ℝ) ^ 2 + (flatDir pts i).z ^ 2
      = flatLen pts i ^ 2 := by
    have hy : (flatDir pts i).y = 0 := rfl
    have : flatLen pts i ^ 2
        = (flatDir pts i).x ^ 2 + (flatDir pts i).y ^ 2 + (flatDir pts i).z ^ 2 := by
      unfold flatLen vnorm
      rw [Real.sq_sqrt (by positivity)]
    rw [this, hy]
  unfold vnorm
  dsimp
  rw [show (-((flatDir pts i).z / flatLen pts i)) ^ 2 + (0 : ℝ) ^ 2
        + ((flatDir pts i).x / flatLen pts i) ^ 2
      = ((flatDir pts i).x ^ 2 + (0 : ℝ) ^ 2 + (flatDir pts i).z ^ 2)
        / flatLen pts i ^ 2 by ring]
  rw [hsq, div_self (by positivity), Real.sqrt_one]

/-- At any vertex, the emitted left and right vertices are `2·half_width ×
‖perp‖` apart. -/
theorem dist_left_right (pts : List Vec3) (hw : ℝ) (i : ℕ) :
    dist3 (leftAt pts hw i) (rightAt pts hw i)
      = (2 * |hw|) * vnorm (perpAt pts i) := by
  unfold dist3 leftAt rightAt
  rw [vsub_add_sub, show vsmul 2 (vsmul hw (perpAt pts i))
      = vsmul (2 * hw) (perpAt pts i) by unfold vsmul; ext <;> dsimp <;> ring]
  rw [vnorm_smul]
  rw [abs_mul]
  norm_num

theorem sqrt_comp (a b c : ℝ) (ha : a = 0) (hb : b = 0) (hc : 0 ≤ c) :
    Real.sqrt (a ^ 2 + b ^ 2 + c ^ 2) = c := by
  subst ha; subst hb
  rw [show (0:ℝ) ^ 2 + 0 ^ 2 + c ^ 2 = c ^ 2 by ring, Real.sqrt_sq hc]

theorem dirAt_pts2_0 : dirAt pts2 0
    = vsub (roadPoint none 0 0 0 (1, 0)) (roadPoint none 0 0 0 (0, 0)) := rfl

/-- On the concrete 1°-of-latitude segment the flattened direction length
is one degree of latitude in feet. -/
theorem flatLen_pts2_0 : flatLen pts2 0
    = (Real.pi / 180) * ((EARTH_RADIUS : ℚ) : ℝ) * ((METERS_TO_FEET : ℚ) : ℝ) := by
  have hx : (flatDir pts2 0).x = 0 := by
    show (dirAt pts2 0).x = 0
    rw [dirAt_pts2_0]
    unfold roadPoint latlon_to_local vsub
    dsimp
    ring
  have hy : (flatDir pts2 0).y = 0 := rfl
  have hz : (flatDir pts2 0).z
      = (Real.pi / 180) * ((EARTH_RADIUS : ℚ) : ℝ) * ((METERS_TO_FEET : ℚ) : ℝ) := by
    show (dirAt pts2 0).z = _
    rw [dirAt_pts2_0]
    unfold roadPoint latlon_to_local vsub
    dsimp
    push_cast
    ring
  have hK : (0 : ℝ) ≤ (Real.pi / 180) * ((EARTH_RADIUS : ℚ) : ℝ)
      * ((METERS_TO_FEET : ℚ) : ℝ) := by
    unfold EARTH_RADIUS METERS_TO_FEET
    push_cast
    positivity
  unfold flatLen vnorm
  rw [hx, hy, hz]
  exact sqrt_comp _ _ _ rfl rfl hK

/-- That length is far above the degeneracy threshold. -/
theorem flatLen_pts2_0_ge : ¬ flatLen pts2 0 < 1 / 1000 := by
  rw [not_lt, flatLen_pts2_0]
  unfold EARTH_RADIUS METERS_TO_FEET
  push_cast
  nlinarith [Real.pi_gt_three]

/-- On coincident nodes the direction vector is zero. -/
theorem dirAt_ptsDup_0 : dirAt ptsDup 0
    = vsub (roadPoint none 0 0 0 (0, 0)) (roadPoint none 0 0 0 (0, 0)) := rfl

theorem flatLen_ptsDup_0 : flatLen ptsDup 0 = 0 := by
  have hx : (flatDir ptsDup 0).x = 0 := by
    show (dirAt ptsDup 0).x = 0
    rw [dirAt_ptsDup_0]
    unfold vsub
    dsimp
    ring
  have hy : (flatDir ptsDup 0).y = 0 := rfl
  have hz : (flatDir ptsDup 0).z = 0 := by
    show (dirAt ptsDup 0).z = 0
    rw [dirAt_ptsDup_0]
    unfold vsub
    dsimp
    ring
  unfold flatLen vnorm
  rw [hx, hy, hz]
  exact sqrt_comp _ _ _ rfl rfl le_rfl

theorem flatLen_ptsDup_lt : flatLen ptsDup 0 < 1 / 1000 := by
  rw [flatLen_ptsDup_0]
  norm_num

/-- The shoelace area of a 3-ring with constant first coordinate is zero. -/
theorem polyArea_three_collinear (p q r : ℝ × ℝ) (h1 : p.1 = q.1)
    (h2 : q.1 = r.1) : polyArea [p, q, r] = 0 := by
  have h : shoelaceAux p [p, q, r] = 0 := by
    simp only [shoelaceAux]
    rw [h1, h2]
    ring
  simp only [polyArea, h]
  norm_num

end OSM

namespace Claims

open OSM

/-- C9: the attribute resolvers return the spec's listed values on the
listed inputs: `resolveHeight({"height": "12m"}) = 12 × 3.28084`,
`resolveHeight({"building:levels": "3"}) = 30`,
`resolveHeight({"building": "house"}) = 25`, `resolveHeight({}) = 25`,
`resolveWidth({"highway": "motorway"}) = 48`,
`resolveWidth({"lanes": "2"}) = 20`. -/
theorem C9_resolver_listed_values :
    get_building_height [("height", "12m")] = 12 * METERS_TO_FEET ∧
    get_building_height [("building:levels", "3")] = 30 ∧
    get_building_height [("building", "house")] = 25 ∧
    get_building_height [] = 25 ∧
    get_road_width [("highway", "motorway")] = 48 ∧
    get_road_width [("lanes", "2")] = 20 := by
  refine ⟨?_, ?_, rfl, rfl, rfl, ?_⟩
  · have h : heightTag? [("height", "12m")] = some 12 := rfl
    simp [get_building_height, h]
  · have h1 : heightTag? [("building:levels", "3")] = none := rfl
    have h2 : levelsTag? [("building:levels", "3")] = some 3 := rfl
    rw [get_building_height, h1, h2]
    norm_num
  · have h1 : widthTag? [("lanes", "2")] = none := rfl
    have h2 : lanesTag? [("lanes", "2")] = some 2 := rfl
    rw [get_road_width, h1, h2]
    norm_num

/-- C1 counterexample: the claim asserts the resolved value is strictly
positive for all tag sets, including explicit dimension tags that parse to
zero; but `get_building_height {"height": "0"}` parses `"0"` successfully
at tier 1 and returns `0 × 3.28084 = 0`, which is not positive. -/
theorem C1_counterexample : ¬ 0 < get_building_height [("height", "0")] := by
  have h : heightTag? [("height", "0")] = some 0 := rfl
  simp [get_building_height, h]

/-- C1 (amended): `resolveHeight` and `resolveWidth` always terminate and
parse failures fall through tier by tier; the result is strictly positive
provided every explicit dimension tag and count tag that does parse
parses to a strictly positive number (the categorical-table and default
tiers are unconditionally positive).  Without that proviso the code
returns the parsed value scaled, which can be zero or negative. -/
theorem C1_resolution_totally_positive (tags : List (String × String))
    (hH : ∀ q : ℚ, heightTag? tags = some q → 0 < q)
    (hL : ∀ n : ℤ, levelsTag? tags = some n → 0 < n)
    (hW : ∀ q : ℚ, widthTag? tags = some q → 0 < q)
    (hN : ∀ n : ℤ, lanesTag? tags = some n → 0 < n) :
    0 < get_building_height tags ∧ 0 < get_road_width tags := by
  constructor
  · rw [get_building_height]
    cases hh : heightTag? tags with
    | some q => exact mul_pos (hH q hh) METERS_TO_FEET_pos
    | none =>
      cases hl : levelsTag? tags with
      | some n =>
        have : (0 : ℚ) < (n : ℚ) := by exact_mod_cast hL n hl
        positivity
      | none => exact lookupTable_pos _ _ _ DEFAULT_HEIGHTS_pos (by norm_num [DEFAULT_HEIGHT])
  · rw [get_road_width]
    cases hw : widthTag? tags with
    | some q => exact mul_pos (hW q hw) METERS_TO_FEET_pos
    | none =>
      cases hl : lanesTag? tags with
      | some n =>
        have : (0 : ℚ) < (n : ℚ) := by exact_mod_cast hN n hl
        positivity
      | none => exact lookupTable_pos _ _ _ ROAD_WIDTHS_pos (by norm_num [DEFAULT_ROAD_WIDTH])

/-- C1 witness: on the empty tag set every parse tier is vacuously
positive, and both resolvers return their positive defaults. -/
theorem C1_witness :
    0 < get_building_height [] ∧ 0 < get_road_width [] :=
  C1_resolution_totally_positive []
    (by intro q h; simp [heightTag?, lookupTag] at h)
    (by intro n h; simp [levelsTag?, lookupTag] at h)
    (by intro q h; simp [widthTag?, lookupTag] at h)
    (by intro n h; simp [lanesTag?, lookupTag] at h)

/-- C8: the sampler returns absent whenever no grid is loaded or the
fractional column/row falls outside `[0, width-1)` / `[0, height-1)`;
no clamping or extrapolation produces a value in those cases. -/
theorem C8_out_of_bounds_absent (hm? : Option Heightmap) (lat lon : ℚ)
    (h : hm? = none ∨ ∃ hm, hm? = some hm ∧ sampleOOB hm lat lon) :
    sample hm? lat lon = none := by
  rcases h with rfl | ⟨hm, rfl, hg⟩
  · rfl
  · exact sampleGrid_oob hm lat lon hg

/-- C8 witness: sampling with no grid loaded, and sampling the 2×2 grid at
a point 100° east of its origin (fractional column 100 ≥ width − 1 = 1),
both return absent. -/
theorem C8_witness :
    sample none 0 0 = none ∧ sample (some grid2) 0 100 = none :=
  ⟨C8_out_of_bounds_absent none 0 0 (Or.inl rfl),
   C8_out_of_bounds_absent (some grid2) 0 100
     (Or.inr ⟨grid2, rfl, Or.inr (Or.inl (by norm_num [colOf, grid2]))⟩)⟩

/-- C3 counterexample: the claim ranges over all node positions
`0 ≤ r < height`, `0 ≤ c < width`, but at the node `(1, 1)` of a 2×2 grid
the bounds guard `col >= width - 1` fires and the sampler returns absent
instead of the node value. -/
theorem C3_counterexample :
    sample (some grid2) (grid2.origin_lat - 1 * grid2.pixel_size)
        (grid2.origin_lon + 1 * grid2.pixel_size)
      ≠ some (grid2.grid 1 1 * METERS_TO_FEET) := by
  have hoob : sampleOOB grid2 (grid2.origin_lat - 1 * grid2.pixel_size)
      (grid2.origin_lon + 1 * grid2.pixel_size) := by
    norm_num [sampleOOB, colOf, rowOf, grid2]
  have h : sample (some grid2) (grid2.origin_lat - 1 * grid2.pixel_size)
      (grid2.origin_lon + 1 * grid2.pixel_size) = none :=
    sampleGrid_oob _ _ _ hoob
  rw [h]
  simp

/-- C3 (amended): for a grid with positive pixel size, sampling at the
geodetic point that maps exactly to `(row, col) = (r, c)` returns exactly
`grid[r][c] × 3.28084` with no interpolation error, for every *interior*
node `0 ≤ r < height − 1`, `0 ≤ c < width − 1`.  (Nodes on the last row or
column are rejected by the bounds guard — see the counterexample.) -/
theorem C3_exact_at_interior_nodes (hm : Heightmap) (r c : ℕ)
    (hp : 0 < hm.pixel_size)
    (hc : (c : ℚ) < (hm.width : ℚ) - 1) (hr : (r : ℚ) < (hm.height : ℚ) - 1) :
    sample (some hm) (hm.origin_lat - r * hm.pixel_size)
        (hm.origin_lon + c * hm.pixel_size)
      = some (hm.grid r c * METERS_TO_FEET) := by
  have hcol : colOf hm (hm.origin_lon + c * hm.pixel_size) = c := by
    unfold colOf; field_simp
  have hrow : rowOf hm (hm.origin_lat - r * hm.pixel_size) = r := by
    unfold rowOf; field_simp
  have hnb : ¬ sampleOOB hm (hm.origin_lat - r * hm.pixel_size)
      (hm.origin_lon + c * hm.pixel_size) := by
    unfold sampleOOB
    rw [hcol, hrow]
    push_neg
    exact ⟨by positivity, not_le.1 (by exact not_le.2 hc), by positivity,
      not_le.1 (by exact not_le.2 hr)⟩
  calc sample (some hm) (hm.origin_lat - r * hm.pixel_size)
        (hm.origin_lon + c * hm.pixel_size)
      = some (bilinear hm (hm.origin_lat - r * hm.pixel_size)
          (hm.origin_lon + c * hm.pixel_size)) := sampleGrid_inb _ _ _ hnb
    _ = some (hm.grid r c * METERS_TO_FEET) := by
          rw [bilinear_node hm r c hp.ne']

/-- C3 witness: on the 3×3 grid the interior node `(1, 1)` is sampled
exactly. -/
theorem C3_witness :
    0 < grid3.pixel_size ∧
    ((1 : ℕ) : ℚ) < (grid3.width : ℚ) - 1 ∧
    ((1 : ℕ) : ℚ) < (grid3.height : ℚ) - 1 ∧
    sample (some grid3) (grid3.origin_lat - 1 * grid3.pixel_size)
        (grid3.origin_lon + 1 * grid3.pixel_size)
      = some (grid3.grid 1 1 * METERS_TO_FEET) :=
  ⟨by norm_num [grid3], by norm_num [grid3], by norm_num [grid3],
   C3_exact_at_interior_nodes grid3 1 1 (by norm_num [grid3])
     (by norm_num [grid3]) (by norm_num [grid3])⟩

/-- C10: every successfully sampled value lies between the minimum and the
maximum of the four surrounding corner samples (each converted from meters
to feet), because the bilinear weights are non-negative and sum to one. -/
theorem C10_sample_between_corners (hm : Heightmap) (lat lon v : ℚ)
    (h : sample (some hm) lat lon = some v) :
    min (min (hm.grid (⌊rowOf hm lat⌋).toNat (⌊colOf hm lon⌋).toNat * METERS_TO_FEET)
             (hm.grid (⌊rowOf hm lat⌋).toNat ((⌊colOf hm lon⌋).toNat + 1) * METERS_TO_FEET))
        (min (hm.grid ((⌊rowOf hm lat⌋).toNat + 1) (⌊colOf hm lon⌋).toNat * METERS_TO_FEET)
             (hm.grid ((⌊rowOf hm lat⌋).toNat + 1) ((⌊colOf hm lon⌋).toNat + 1) * METERS_TO_FEET))
      ≤ v ∧
    v ≤ max (max (hm.grid (⌊rowOf hm lat⌋).toNat (⌊colOf hm lon⌋).toNat * METERS_TO_FEET)
             (hm.grid (⌊rowOf hm lat⌋).toNat ((⌊colOf hm lon⌋).toNat + 1) * METERS_TO_FEET))
        (max (hm.grid ((⌊rowOf hm lat⌋).toNat + 1) (⌊colOf hm lon⌋).toNat * METERS_TO_FEET)
             (hm.grid ((⌊rowOf hm lat⌋).toNat + 1) ((⌊colOf hm lon⌋).toNat + 1) * METERS_TO_FEET)) := by
  have hs : sampleGrid hm lat lon = some v := h
  rw [sampleGrid] at hs
  by_cases hg : sampleOOB hm lat lon
  · rw [if_pos hg] at hs
    exact absurd hs (by simp)
  · rw [if_neg hg] at hs
    have hv : bilinear hm lat lon = v := Option.some.inj hs
    unfold sampleOOB at hg
    push_neg at hg
    obtain ⟨h1, _, h3, _⟩ := hg
    have hcol0 : (0 : ℚ) ≤ colOf hm lon := h1
    have hrow0 : (0 : ℚ) ≤ rowOf hm lat := h3
    have hcnat : ((⌊colOf hm lon⌋.toNat : ℤ) : ℚ) = ((⌊colOf hm lon⌋ : ℤ) : ℚ) := by
      exact_mod_cast congrArg (fun z : ℤ => (z : ℚ))
        (Int.toNat_of_nonneg (Int.floor_nonneg.2 hcol0))
    have hrnat : ((⌊rowOf hm lat⌋.toNat : ℤ) : ℚ) = ((⌊rowOf hm lat⌋ : ℤ) : ℚ) := by
      exact_mod_cast congrArg (fun z : ℤ => (z : ℚ))
        (Int.toNat_of_nonneg (Int.floor_nonneg.2 hrow0))
    have hdc0 : 0 ≤ colOf hm lon - (⌊colOf hm lon⌋.toNat : ℚ) := by
      push_cast at hcnat
      rw [hcnat]
      exact sub_nonneg.2 (Int.floor_le (colOf hm lon))
    have hdc1 : colOf hm lon - (⌊colOf hm lon⌋.toNat : ℚ) ≤ 1 := by
      push_cast at hcnat
      rw [hcnat]
      have := Int.lt_floor_add_one (colOf hm lon)
      linarith
    have hdr0 : 0 ≤ rowOf hm lat - (⌊rowOf hm lat⌋.toNat : ℚ) := by
      push_cast at hrnat
      rw [hrnat]
      exact sub_nonneg.2 (Int.floor_le (rowOf hm lat))
    have hdr1 : rowOf hm lat - (⌊rowOf hm lat⌋.toNat : ℚ) ≤ 1 := by
      push_cast at hrnat
      rw [hrnat]
      have := Int.lt_floor_add_one (rowOf hm lat)
      linarith
    rw [← hv]
    simp only [bilinear]
    exact bilinear_formula_bounds _ _ _ _ _ _ _ hdc0 hdc1 hdr0 hdr1
      (le_of_lt METERS_TO_FEET_pos)

/-- C10 witness: on the 3×3 grid, sampling at fractional position
`(row, col) = (1/2, 1/2)` yields `3/2` meters (in feet), which lies
between the four corner samples `0, 1, 2, 3` meters (in feet). -/
theorem C10_witness :
    sample (some grid3) (-(1/2)) (1/2) = some (3/2 * METERS_TO_FEET) ∧
    min (min (grid3.grid 0 0 * METERS_TO_FEET) (grid3.grid 0 1 * METERS_TO_FEET))
        (min (grid3.grid 1 0 * METERS_TO_FEET) (grid3.grid 1 1 * METERS_TO_FEET))
      ≤ 3/2 * METERS_TO_FEET ∧
    3/2 * METERS_TO_FEET
      ≤ max (max (grid3.grid 0 0 * METERS_TO_FEET) (grid3.grid 0 1 * METERS_TO_FEET))
            (max (grid3.grid 1 0 * METERS_TO_FEET) (grid3.grid 1 1 * METERS_TO_FEET)) := by
  have hfloor : (⌊(1/2 : ℚ)⌋ : ℤ) = 0 := by
    rw [Int.floor_eq_zero_iff]
    norm_num [Set.mem_Ico]
  have hcol : colOf grid3 (1/2) = 1/2 := by norm_num [colOf, grid3]
  have hrow : rowOf grid3 (-(1/2)) = 1/2 := by norm_num [rowOf, grid3]
  have hnb : ¬ sampleOOB grid3 (-(1/2)) (1/2) := by
    unfold sampleOOB
    rw [hcol, hrow]
    norm_num [grid3]
  have hb : bilinear grid3 (-(1/2)) (1/2) = 3/2 * METERS_TO_FEET := by
    simp only [bilinear, hcol, hrow, hfloor]
    norm_num [grid3]
  have h : sample (some grid3) (-(1/2)) (1/2) = some (3/2 * METERS_TO_FEET) := by
    have hs := sampleGrid_inb grid3 (-(1/2)) (1/2) hnb
    rw [hb] at hs
    exact hs
  refine ⟨h, ?_, ?_⟩
  · have hlow := (C10_sample_between_corners grid3 (-(1/2)) (1/2) _ h).1
    rw [hcol, hrow, hfloor] at hlow
    simpa using hlow
  · have hhigh := (C10_sample_between_corners grid3 (-(1/2)) (1/2) _ h).2
    rw [hcol, hrow, hfloor] at hhigh
    simpa using hhigh

/-- C5: for N ≥ 2 input points the strip mesh has exactly 2N vertices
(left then right per input point, in input order) and 2(N−1) triangles,
segment `i` contributing `(2i, 2i+2, 2i+1)` and `(2i+1, 2i+2, 2i+3)`; for
N < 2 the result is absent. -/
theorem C5_strip_topology (nodes : List (ℚ × ℚ)) (width : ℚ)
    (hm? : Option Heightmap) (de olat olon : ℚ) :
    (nodes.length < 2 → road_to_mesh nodes width hm? de olat olon = none) ∧
    (2 ≤ nodes.length →
      ∃ m, road_to_mesh nodes width hm? de olat olon = some m ∧
        m.vertices.length = 2 * nodes.length ∧
        m.faces.length = 2 * (nodes.length - 1) ∧
        (∀ i, i < nodes.length →
          m.vertices.getD (2 * i) vzero
            = leftAt (roadPoints nodes hm? de olat olon) ((width : ℝ) / 2) i ∧
          m.vertices.getD (2 * i + 1) vzero
            = rightAt (roadPoints nodes hm? de olat olon) ((width : ℝ) / 2) i) ∧
        (∀ i, i < nodes.length - 1 →
          m.faces.getD (2 * i) (0, 0, 0) = (2 * i, 2 * i + 2, 2 * i + 1) ∧
          m.faces.getD (2 * i + 1) (0, 0, 0)
            = (2 * i + 1, 2 * i + 2, 2 * i + 3))) := by
  constructor
  · intro h
    unfold road_to_mesh
    rw [if_pos h]
  · intro h2
    refine ⟨_, road_to_mesh_eq nodes width hm? de olat olon h2, ?_, ?_, ?_, ?_⟩
    · dsimp only
      rw [roadVertices_length, roadPoints_length]
    · dsimp only
      rw [roadFaces_length, roadPoints_length]
    · intro i hi
      exact roadVertices_getD _ _ i (by rw [roadPoints_length]; exact hi)
    · intro i hi
      exact roadFaces_getD _ i (by rw [roadPoints_length]; omega)

/-- C5 witness: the concrete 2-point polyline of width 10 yields 4
vertices and 2 faces with the stated topology. -/
theorem C5_witness :
    2 ≤ cnodes2.length ∧
    (∃ m, road_to_mesh cnodes2 10 none 0 0 0 = some m ∧
      m.vertices.length = 2 * cnodes2.length ∧
      m.faces.length = 2 * (cnodes2.length - 1) ∧
      (∀ i, i < cnodes2.length →
        m.vertices.getD (2 * i) vzero
          = leftAt (roadPoints cnodes2 none 0 0 0) (((10 : ℚ) : ℝ) / 2) i ∧
        m.vertices.getD (2 * i + 1) vzero
          = rightAt (roadPoints cnodes2 none 0 0 0) (((10 : ℚ) : ℝ) / 2) i) ∧
      (∀ i, i < cnodes2.length - 1 →
        m.faces.getD (2 * i) (0, 0, 0) = (2 * i, 2 * i + 2, 2 * i + 1) ∧
        m.faces.getD (2 * i + 1) (0, 0, 0)
          = (2 * i + 1, 2 * i + 2, 2 * i + 3))) :=
  ⟨by decide, (C5_strip_topology cnodes2 10 none 0 0 0).2 (by decide)⟩

/-- C6 counterexample: the claim quantifies over every resolved width, but
`resolveWidth({"lanes": "-1"}) = -10` is a resolved width, and at a
non-degenerate vertex the left/right distance is `10 = |-10|`, not `-10`. -/
theorem C6_counterexample :
    get_road_width [("lanes", "-1")] = -10 ∧
    (∃ m, road_to_mesh cnodes2 (get_road_width [("lanes", "-1")]) none 0 0 0
        = some m ∧
      ¬ flatLen pts2 0 < 1 / 1000 ∧
      dist3 (m.vertices.getD (2 * 0) vzero) (m.vertices.getD (2 * 0 + 1) vzero)
        ≠ ((get_road_width [("lanes", "-1")] : ℚ) : ℝ)) := by
  have hw : get_road_width [("lanes", "-1")] = -10 := by
    have h1 : widthTag? [("lanes", "-1")] = none := rfl
    have h2 : lanesTag? [("lanes", "-1")] = some (-1) := rfl
    rw [get_road_width, h1, h2]
    norm_num
  refine ⟨hw, _,
    road_to_mesh_eq cnodes2 (get_road_width [("lanes", "-1")]) none 0 0 0
      (by decide), flatLen_pts2_0_ge, ?_⟩
  have hv := roadVertices_getD (roadPoints cnodes2 none 0 0 0)
    (((get_road_width [("lanes", "-1")] : ℚ) : ℝ) / 2) 0
    (by rw [roadPoints_length]; decide)
  dsimp only
  rw [hv.1, hv.2, dist_left_right,
    vnorm_perpAt (roadPoints cnodes2 none 0 0 0) 0 flatLen_pts2_0_ge, hw]
  push_cast
  norm_num

/-- C6 (amended): at every non-degenerate centerline vertex the distance
between the emitted left and right vertices equals the absolute value
`|w|` of the resolved width (equal to `w` whenever `w ≥ 0`; a negative
resolved width flips the two sides but keeps the separation `|w|`). -/
theorem C6_strip_width_abs (nodes : List (ℚ × ℚ)) (width : ℚ)
    (hm? : Option Heightmap) (de olat olon : ℚ) (m : Mesh) (i : ℕ)
    (h : road_to_mesh nodes width hm? de olat olon = some m)
    (hi : i < nodes.length)
    (hnd : ¬ flatLen (roadPoints nodes hm? de olat olon) i < 1 / 1000) :
    dist3 (m.vertices.getD (2 * i) vzero) (m.vertices.getD (2 * i + 1) vzero)
      = |((width : ℚ) : ℝ)| := by
  have h2 : 2 ≤ nodes.length := by
    by_contra hc
    rw [road_to_mesh, if_pos (by omega)] at h
    exact Option.noConfusion h
  rw [road_to_mesh_eq nodes width hm? de olat olon h2] at h
  obtain rfl := (Option.some.inj h).symm
  have hv := roadVertices_getD (roadPoints nodes hm? de olat olon)
    (((width : ℚ) : ℝ) / 2) i (by rw [roadPoints_length]; exact hi)
  dsimp only
  rw [hv.1, hv.2, dist_left_right, vnorm_perpAt _ _ hnd, mul_one, abs_div]
  norm_num
  ring

/-- C6 witness: for the concrete width −10 the left/right pair at vertex 0
is exactly `|-10| = 10` apart. -/
theorem C6_witness :
    ∃ m, road_to_mesh cnodes2 (-10) none 0 0 0 = some m ∧
      dist3 (m.vertices.getD (2 * 0) vzero) (m.vertices.getD (2 * 0 + 1) vzero)
        = |(((-10 : ℚ)) : ℝ)| :=
  ⟨_, road_to_mesh_eq cnodes2 (-10) none 0 0 0 (by decide),
    C6_strip_width_abs cnodes2 (-10) none 0 0 0 _ 0
      (road_to_mesh_eq cnodes2 (-10) none 0 0 0 (by decide))
      (by decide) flatLen_pts2_0_ge⟩

/-- C2 counterexample: at a degenerate vertex (two coincident nodes) the
code substitutes the *perpendicular* — not the direction — with east, so
the left/right offset is along the x (east) axis: the two vertices have
equal z but x differing by the full width, contradicting the claimed
offset along z (north). -/
theorem C2_counterexample :
    flatLen ptsDup 0 < 1 / 1000 ∧
    (leftAt ptsDup 5 0).z = (rightAt ptsDup 5 0).z ∧
    (leftAt ptsDup 5 0).x - (rightAt ptsDup 5 0).x = 10 := by
  refine ⟨flatLen_ptsDup_lt, ?_, ?_⟩
  · unfold leftAt rightAt perpAt
    rw [if_pos flatLen_ptsDup_lt]
    unfold vadd vsub vsmul
    dsimp
    ring
  · unfold leftAt rightAt perpAt
    rw [if_pos flatLen_ptsDup_lt]
    unfold vadd vsub vsmul
    dsimp
    ring

/-- C2 (amended): at every degenerate vertex (flattened direction length
below 0.001) the code substitutes the *perpendicular* itself with east
`(1, 0, 0)`, so the left/right offset is applied along the x (east) axis:
left − right = `(2·half_width, 0, 0)`. -/
theorem C2_fallback_perp_is_east (pts : List Vec3) (hw : ℝ) (i : ℕ)
    (h : flatLen pts i < 1 / 1000) :
    perpAt pts i = ⟨1, 0, 0⟩ ∧
    vsub (leftAt pts hw i) (rightAt pts hw i) = ⟨2 * hw, 0, 0⟩ := by
  constructor
  · unfold perpAt
    rw [if_pos h]
  · unfold leftAt rightAt perpAt
    rw [if_pos h]
    unfold vadd vsub vsmul
    ext <;> dsimp <;> ring

/-- C2 witness: on the coincident-node polyline with half-width 5 the
fallback fires and left − right = `(10, 0, 0)`. -/
theorem C2_witness :
    flatLen ptsDup 0 < 1 / 1000 ∧
    perpAt ptsDup 0 = ⟨1, 0, 0⟩ ∧
    vsub (leftAt ptsDup 5 0) (rightAt ptsDup 5 0) = ⟨2 * 5, 0, 0⟩ :=
  ⟨flatLen_ptsDup_lt,
    (C2_fallback_perp_is_east ptsDup 5 0 flatLen_ptsDup_lt).1,
    (C2_fallback_perp_is_east ptsDup 5 0 flatLen_ptsDup_lt).2⟩

/-- C4 counterexample: the claim quantifies over every origin, but with a
polar origin the longitude scale `cos(90°) = 0` kills the x component:
the point (90°, 1°) projects to the zero vector although it differs from
the origin (90°, 0°). -/
theorem C4_counterexample :
    latlon_to_local 90 1 90 0 = (0, 0) ∧
    ((90 : ℝ), (1 : ℝ)) ≠ ((90 : ℝ), (0 : ℝ)) := by
  constructor
  · unfold latlon_to_local
    dsimp only
    rw [show (90 : ℝ) * (Real.pi / 180) = Real.pi / 2 by ring,
      Real.cos_pi_div_two]
    rw [Prod.mk.injEq]
    constructor <;> ring
  · intro h
    have h2 := congrArg Prod.snd h
    norm_num at h2

/-- C4 (amended): for every non-polar origin (latitude strictly between
−90° and 90°) the projection is the zero vector iff the point equals the
origin.  (At a pole the longitude factor `cos(±90°)` vanishes and the
equivalence fails — see the counterexample.) -/
theorem C4_zero_iff_origin (lat lon olat olon : ℝ)
    (h1 : -90 < olat) (h2 : olat < 90) :
    latlon_to_local lat lon olat olon = (0, 0) ↔ lat = olat ∧ lon = olon := by
  have hpi := Real.pi_pos
  have hcos : 0 < Real.cos (olat * (Real.pi / 180)) := by
    apply Real.cos_pos_of_mem_Ioo
    rw [Set.mem_Ioo]
    constructor
    · nlinarith
    · nlinarith
  have hR : (0 : ℝ) < ((EARTH_RADIUS : ℚ) : ℝ) := by
    unfold EARTH_RADIUS
    push_cast
    norm_num
  have hM : (0 : ℝ) < ((METERS_TO_FEET : ℚ) : ℝ) := by
    unfold METERS_TO_FEET
    push_cast
    norm_num
  unfold latlon_to_local
  dsimp only
  rw [Prod.mk.injEq]
  constructor
  · rintro ⟨hx, hz⟩
    constructor
    · rcases mul_eq_zero.1 hz with h | h
      · rcases mul_eq_zero.1 h with h' | h'
        · linarith [sub_eq_zero.1 h']
        · exact absurd h' (by positivity)
      · exact absurd h hM.ne'
    · rcases mul_eq_zero.1 hx with h | h
      · rcases mul_eq_zero.1 h with h' | h'
        · linarith [sub_eq_zero.1 h']
        · exact absurd h' (by positivity)
      · exact absurd h hM.ne'
  · rintro ⟨rfl, rfl⟩
    constructor <;> ring

/-- C4 witness: with the non-polar origin (0°, 0°) the origin itself
projects to the zero vector. -/
theorem C4_witness :
    ((-90 : ℝ) < 0) ∧ ((0 : ℝ) < 90) ∧ latlon_to_local 0 0 0 0 = (0, 0) :=
  ⟨by norm_num, by norm_num,
    (C4_zero_iff_origin 0 0 0 0 (by norm_num) (by norm_num)).mpr ⟨rfl, rfl⟩⟩

/-- C7: whatever the external geometry backend (shapely validity, repair,
area; trimesh extrusion) does, if the polygon that reaches the area check
— projected, and repaired when invalid — has area < 10 square feet, the
footprint builder returns absent. -/
theorem C7_small_area_rejected (B : GeomBackend) (nodes : List (ℚ × ℚ))
    (height base : ℝ) (olat olon : ℚ) (poly : List (ℝ × ℝ))
    (hres : resolvedPolygon B nodes olat olon = some poly)
    (harea : B.area poly < 10) :
    polygon_to_mesh B nodes height base olat olon = none := by
  unfold polygon_to_mesh
  rw [hres]
  dsimp only
  rw [if_pos harea]

/-- C7 witness: the degenerate collinear 3-node footprint resolves (under
the concrete shoelace backend) to a polygon of area 0 < 10 and is
rejected. -/
theorem C7_witness :
    resolvedPolygon simpleBackend cnodes3 0 0
      = some (projectedRing cnodes3 0 0) ∧
    simpleBackend.area (projectedRing cnodes3 0 0) < 10 ∧
    polygon_to_mesh simpleBackend cnodes3 10 0 0 0 = none := by
  have hres : resolvedPolygon simpleBackend cnodes3 0 0
      = some (projectedRing cnodes3 0 0) := by
    unfold resolvedPolygon
    rw [if_neg (by decide)]
    simp [simpleBackend]
  have harea : simpleBackend.area (projectedRing cnodes3 0 0) < 10 := by
    show polyArea (projectedRing cnodes3 0 0) < 10
    have hpr : projectedRing cnodes3 0 0
        = [latlon_to_local ((0 : ℚ) : ℝ) ((0 : ℚ) : ℝ) ((0 : ℚ) : ℝ) ((0 : ℚ) : ℝ),
           latlon_to_local ((1 : ℚ) : ℝ) ((0 : ℚ) : ℝ) ((0 : ℚ) : ℝ) ((0 : ℚ) : ℝ),
           latlon_to_local ((2 : ℚ) : ℝ) ((0 : ℚ) : ℝ) ((0 : ℚ) : ℝ) ((0 : ℚ) : ℝ)] := rfl
    rw [hpr]
    have hz := polyArea_three_collinear
      (latlon_to_local ((0 : ℚ) : ℝ) ((0 : ℚ) : ℝ) ((0 : ℚ) : ℝ) ((0 : ℚ) : ℝ))
      (latlon_to_local ((1 : ℚ) : ℝ) ((0 : ℚ) : ℝ) ((0 : ℚ) : ℝ) ((0 : ℚ) : ℝ))
      (latlon_to_local ((2 : ℚ) : ℝ) ((0 : ℚ) : ℝ) ((0 : ℚ) : ℝ) ((0 : ℚ) : ℝ))
      rfl rfl
    rw [hz]
    norm_num
  exact ⟨hres, harea,
    C7_small_area_rejected simpleBackend cnodes3 10 0 0 0 _ hres harea⟩

end Claims
